import Mathlib

set_option maxRecDepth 100000

/-!
Verification of the IoT furnace temperature controller (src/IOT.py and
src/project_new.py) against its natural-language specification.

Temperatures are Python floats in the source.  Every arithmetic the
controller performs on them (comparison, subtraction of the constant
threshold, the calibration polynomial) is exact on the decimal values
involved, so finite float values are modelled as exact rationals (ℚ);
the non-finite IEEE values (+inf, -inf, nan), which Python's float()
can produce from strings such as "inf" or "nan", are modelled
explicitly by the `PyFloat` type together with IEEE comparison
semantics (every comparison involving nan is false).
-/

namespace IoT

/-- A Python float value: a finite value (modelled exactly as a rational),
one of the two infinities, or nan. -/
inductive PyFloat where
  | finite (q : ℚ)
  | posInf
  | negInf
  | nan
deriving DecidableEq, Repr

/-- IEEE `<` on Python floats: any comparison with nan is false;
-inf is below everything else, +inf above everything else. -/
def PyFloat.lt : PyFloat → PyFloat → Bool
  | .nan, _ => false
  | _, .nan => false
  | .negInf, .negInf => false
  | .negInf, _ => true
  | _, .negInf => false
  | .posInf, _ => false
  | _, .posInf => true
  | .finite a, .finite b => decide (a < b)

/-- IEEE `<=` on Python floats. -/
def PyFloat.le : PyFloat → PyFloat → Bool
  | .nan, _ => false
  | _, .nan => false
  | .negInf, _ => true
  | _, .negInf => false
  | _, .posInf => true
  | .posInf, _ => false
  | .finite a, .finite b => decide (a ≤ b)

/-- IEEE subtraction on Python floats (the controller only ever subtracts
the finite constant threshold from a validated, hence finite, setpoint). -/
def PyFloat.sub : PyFloat → PyFloat → PyFloat
  | .nan, _ => .nan
  | _, .nan => .nan
  | .posInf, .posInf => .nan
  | .posInf, _ => .posInf
  | .negInf, .negInf => .nan
  | .negInf, _ => .negInf
  | .finite _, .posInf => .negInf
  | .finite _, .negInf => .posInf
  | .finite a, .finite b => .finite (a - b)

/-! Constants of src/IOT.py, lines 52-65. -/

def MIN_TEMPERATURE : ℚ := 200
def MAX_TEMPERATURE : ℚ := 1500
def TEMPERATURE_THRESHOLD : ℚ := 10
def ADC_VOLTAGE_MAX : ℚ := 33 / 10
def RESISTOR_LOW : ℚ := 39225 / 1000
def RESISTOR_HIGH : ℚ := 92775 / 1000
def RESISTOR_DIVIDER : ℚ := 50
def TEMP_RANGE_MIN : ℚ := -50
def TEMP_RANGE_MAX : ℚ := 500

/-- `validate_temperature`, src/IOT.py lines 268-278:
`MIN_TEMPERATURE <= temperature <= MAX_TEMPERATURE`, a Python chained
comparison, i.e. the conjunction of the two float comparisons (so every
non-finite argument yields `false`: nan compares false, while each
infinity fails one of the two bounds). -/
def validate_temperature (temperature : PyFloat) : Bool :=
  PyFloat.le (.finite MIN_TEMPERATURE) temperature
    && PyFloat.le temperature (.finite MAX_TEMPERATURE)

/-- The commanded relay state: `relay.on()` / `relay.off()` of gpiozero. -/
inductive RelayState where
  | on
  | off
deriving DecidableEq, Repr

/-- The three email notifications `control_heating_relay` can dispatch
(src/IOT.py lines 335, 344, 349): relay engaged, critically low
temperature, relay disengaged. -/
inductive NotificationKind where
  | engaged
  | criticalLow
  | disengaged
deriving DecidableEq, Repr, BEq

/-- Everything one call of `control_heating_relay` does that is visible
to the claims: the relay state after the call, whether a relay command
was issued at all, whether the sensor was read, and the notifications
dispatched (in program order). -/
structure ControlResult where
  relay : RelayState
  commanded : Bool
  sensorRead : Bool
  notifications : List NotificationKind
deriving DecidableEq, Repr

/-- `control_heating_relay`, src/IOT.py lines 281-352, in the hardware
configuration (the `#prod` branch, lines 330-349; the default mock
branch, lines 312-321, performs the identical comparisons but only
logs, issuing no relay command and no email).

The call sequence of the source:
1. lines 298-301: if `validate_temperature(target_temperature)` fails,
   return at once — the sensor is not read, no relay command is issued,
   no notification is sent;
2. lines 303-307: `read_temperature()`; if it returns `None`, return —
   no relay command, no notification;
3. lines 331-344: if `current_temperature < target_temperature`:
   `relay.on()`, send the "relay engaged" email, and if additionally
   `current_temperature <= target_temperature - TEMPERATURE_THRESHOLD`
   send the "critically low temperature" email;
4. lines 345-349: otherwise `relay.off()` and send the "relay
   disengaged" email.

Inputs that are the environment's in the source are parameters here:
the reading returned by `read_temperature()` (`none` = sensor failure)
and the relay state before the call (`relay0`, the state held when no
command is issued). -/
def control_heating_relay (target_temperature : PyFloat)
    (reading : Option PyFloat) (relay0 : RelayState) : ControlResult :=
  if validate_temperature target_temperature = false then
    ⟨relay0, false, false, []⟩
  else
    match reading with
    | none => ⟨relay0, false, true, []⟩
    | some current_temperature =>
      if PyFloat.lt current_temperature target_temperature then
        ⟨RelayState.on, true, true,
          NotificationKind.engaged ::
            (if PyFloat.le current_temperature
                (PyFloat.sub target_temperature (PyFloat.finite TEMPERATURE_THRESHOLD))
             then [NotificationKind.criticalLow] else [])⟩
      else
        ⟨RelayState.off, true, true, [NotificationKind.disengaged]⟩

/-- Threads the relay state through a sequence of evaluations of
`control_heating_relay` against a fixed target, collecting every
notification dispatched along the way. -/
def runEvaluations (target : PyFloat) (readings : List (Option PyFloat))
    (relay0 : RelayState) : RelayState × List NotificationKind :=
  match readings with
  | [] => (relay0, [])
  | r :: rs =>
    let res := control_heating_relay target r relay0
    let rest := runEvaluations target rs res.relay
    (rest.1, res.notifications ++ rest.2)

/-! ### Parsing a setpoint string

`set_setpoint` (src/IOT.py lines 375-433) converts the submitted form
string with the CPython builtin `float()`.  `pyFloatParse` models that
builtin on a string: optional surrounding ASCII whitespace and an
optional sign, followed either by one of the words `inf`, `infinity`,
`nan` (case-insensitive) or by a decimal literal — digits with an
optional fractional part and an optional exponent, at least one digit
in the mantissa.  It returns `none` exactly when `float()` raises
`ValueError`.  (Underscore digit separators and non-ASCII digits are
outside the strings this development evaluates and are not modelled;
decimal values are kept exact instead of being rounded to the nearest
binary double, which coincides on every comparison the program makes.) -/

/-- Longest digit prefix of a character list, and the rest. -/
def takeDigits : List Char → List Char × List Char
  | [] => ([], [])
  | c :: cs =>
    if c.isDigit then
      let rest := takeDigits cs
      (c :: rest.1, rest.2)
    else ([], c :: cs)

/-- Numeric value of a digit string. -/
def digitsToNat (ds : List Char) : ℕ :=
  ds.foldl (fun a c => 10 * a + (c.toNat - 48)) 0

/-- Decimal literal after the optional sign: digits, optional `.` and
fraction digits, optional `e`/`E` exponent with optional sign.  The whole
input must be consumed and the mantissa must hold at least one digit. -/
def parseDecimal (cs : List Char) : Option ℚ :=
  let ip := takeDigits cs
  let fp : List Char × List Char :=
    match ip.2 with
    | '.' :: rest => takeDigits rest
    | _ => ([], ip.2)
  if ip.1 = [] ∧ fp.1 = [] then none
  else
    let mantissa : ℚ := (digitsToNat ip.1 : ℚ) + (digitsToNat fp.1 : ℚ) / (10 : ℚ) ^ fp.1.length
    match fp.2 with
    | [] => some mantissa
    | 'e' :: rest =>
      match rest with
      | '+' :: rest2 =>
        let ed := takeDigits rest2
        if ed.1 = [] ∨ ed.2 ≠ [] then none
        else some (mantissa * (10 : ℚ) ^ ((digitsToNat ed.1 : ℤ)))
      | '-' :: rest2 =>
        let ed := takeDigits rest2
        if ed.1 = [] ∨ ed.2 ≠ [] then none
        else some (mantissa * (10 : ℚ) ^ (-(digitsToNat ed.1 : ℤ)))
      | rest2 =>
        let ed := takeDigits rest2
        if ed.1 = [] ∨ ed.2 ≠ [] then none
        else some (mantissa * (10 : ℚ) ^ ((digitsToNat ed.1 : ℤ)))
    | _ => none

/-- ASCII lower-casing of one character. -/
def lowerChar (c : Char) : Char :=
  if 'A' ≤ c ∧ c ≤ 'Z' then Char.ofNat (c.toNat + 32) else c

/-- ASCII whitespace stripped by `float()`. -/
def isPySpace (c : Char) : Bool :=
  c = ' ' ∨ c = '\t' ∨ c = '\n' ∨ c = '\r'

/-- Strip leading and trailing whitespace from a character list. -/
def stripChars (cs : List Char) : List Char :=
  ((cs.dropWhile isPySpace).reverse.dropWhile isPySpace).reverse

/-- The CPython builtin `float()` on a string (see the section comment):
`none` models a raised `ValueError`. -/
def pyFloatParse (s : String) : Option PyFloat :=
  let t := (stripChars s.toList).map lowerChar
  let body : Bool × List Char :=
    match t with
    | '+' :: cs => (false, cs)
    | '-' :: cs => (true, cs)
    | cs => (false, cs)
  if body.2 = ['i', 'n', 'f'] ∨ body.2 = ['i', 'n', 'f', 'i', 'n', 'i', 't', 'y'] then
    some (if body.1 then PyFloat.negInf else PyFloat.posInf)
  else if body.2 = ['n', 'a', 'n'] then
    some PyFloat.nan
  else
    match parseDecimal body.2 with
    | some q => some (PyFloat.finite (if body.1 then -q else q))
    | none => none

/-! ### The `/setpoint` POST handler -/

/-- How one call of `set_setpoint` (src/IOT.py lines 375-433) ends:
the setpoint was updated (`ok`), the form held no `setpoint` field
(`errMissing`, lines 394-398), `float()` raised `ValueError`
(`errNotANumber`, lines 400-406), or `validate_temperature` rejected the
parsed value (`errOutOfRange`, lines 408-414). -/
inductive SetpointOutcome where
  | ok
  | errMissing
  | errNotANumber
  | errOutOfRange
deriving DecidableEq, Repr

/-- The range-validation and assignment step of `set_setpoint`,
src/IOT.py lines 408-418: reject the candidate when
`validate_temperature` fails, leaving the stored setpoint `sp0` as it
was; otherwise store it.  (The source then calls
`control_heating_relay(setpoint)`, modelled separately above.) -/
def set_setpoint_validated (new_setpoint : PyFloat) (sp0 : PyFloat) :
    SetpointOutcome × PyFloat :=
  if validate_temperature new_setpoint = false then
    (SetpointOutcome.errOutOfRange, sp0)
  else
    (SetpointOutcome.ok, new_setpoint)

/-- `set_setpoint`, src/IOT.py lines 375-433: take the raw `setpoint`
form field (`none` when absent), parse it with `float()`, validate and
store.  Returns the outcome and the stored setpoint after the call
(the global `setpoint`, initially `25.0`, line 82). -/
def set_setpoint (raw : Option String) (sp0 : PyFloat) :
    SetpointOutcome × PyFloat :=
  match raw with
  | none => (SetpointOutcome.errMissing, sp0)
  | some new_setpoint_str =>
    match pyFloatParse new_setpoint_str with
    | none => (SetpointOutcome.errNotANumber, sp0)
    | some new_setpoint => set_setpoint_validated new_setpoint sp0

/-! ### Email notification dispatch -/

/-- The credentials record of `cred.json` (src/IOT.py lines 114-146). -/
structure EmailCredentials where
  src_email_address : String
  email_password : String
  dst_email_address : String
deriving DecidableEq, Repr

/-- What the SMTP session of src/IOT.py lines 181-184 does, decided by
the environment: delivery, `SMTPAuthenticationError`, another
`SMTPException`, or any other exception. -/
inductive SmtpOutcome where
  | delivered
  | authFailure
  | smtpFailure
  | unexpectedFailure
deriving DecidableEq, Repr

/-- The observable outcome of one `send_email_notification` call:
the boolean the function returns, and whether an SMTP session was
opened at all. -/
structure SendResult where
  ok : Bool
  transportAttempted : Bool
deriving DecidableEq, Repr

/-- `send_email_notification`, src/IOT.py lines 149-196.  When
`load_email_credentials()` yields no record (file missing, malformed, or
incomplete — all returned as `None`, lines 130-146), the function logs
and returns `False` without opening a transport (lines 165-168).
Otherwise it runs the SMTP session; delivery returns `True` (line 187)
and every exception — authentication, SMTP, or unexpected — is caught
and returns `False` (lines 188-196).  No exception escapes the call. -/
def send_email_notification (credentials : Option EmailCredentials)
    (transport : SmtpOutcome) : SendResult :=
  match credentials with
  | none => ⟨false, false⟩
  | some _ =>
    match transport with
    | SmtpOutcome.delivered => ⟨true, true⟩
    | SmtpOutcome.authFailure => ⟨false, true⟩
    | SmtpOutcome.smtpFailure => ⟨false, true⟩
    | SmtpOutcome.unexpectedFailure => ⟨false, true⟩

/-! ### The physical temperature source -/

/-- Round half to even at integer precision, as the CPython builtin
`round` resolves ties. -/
def roundHalfEven (x : ℚ) : ℤ :=
  let f := ⌊x⌋
  if x - f < 1 / 2 then f
  else if 1 / 2 < x - f then f + 1
  else if f % 2 = 0 then f else f + 1

/-- `round(x, 2)` of CPython on an exact value: round half to even at
two decimal places. -/
def round2 (x : ℚ) : ℚ :=
  (roundHalfEven (100 * x) : ℚ) / 100

/-- `read_temperature`, src/IOT.py lines 199-265, in the hardware
configuration (the `#prod` branch, lines 228-258; the default mock
branch returns a random value instead).  The raw MCP3008 sample
`adc_value` lies in `[0, 1]` in the source; `none` models both `adc
is None` and `adc.value is None` (lines 228-237, each returning
`None`).  Steps, lines 240-258: scale the sample to a voltage, compute
the two divider reference voltages, normalize, square, map onto
`[TEMP_RANGE_MIN, TEMP_RANGE_MAX]`, clamp to that range, and round to
two decimals. -/
def read_temperature (adc_value : Option ℚ) : Option ℚ :=
  match adc_value with
  | none => none
  | some v =>
    let voltage := v * ADC_VOLTAGE_MAX
    let low_voltage := ADC_VOLTAGE_MAX * RESISTOR_LOW / (RESISTOR_DIVIDER + RESISTOR_LOW)
    let high_voltage := ADC_VOLTAGE_MAX * RESISTOR_HIGH / (RESISTOR_DIVIDER + RESISTOR_HIGH)
    let voltage_range := high_voltage - low_voltage
    let normalized_voltage := if voltage_range ≠ 0 then (voltage - low_voltage) / voltage_range else 0
    let temperature_range := TEMP_RANGE_MAX - TEMP_RANGE_MIN
    let temperature_celsius := normalized_voltage ^ 2 * temperature_range + TEMP_RANGE_MIN
    let clamped := max TEMP_RANGE_MIN (min TEMP_RANGE_MAX temperature_celsius)
    some (round2 clamped)

/-- The calibration curve as the specification words it: normalize the
sample's voltage between the two reference voltages derived from the
resistor divider, then map through
`temp = normalized^2 * (T_max - T_min) + T_min`, clamped to
`[T_min, T_max]`.  Stated independently of `read_temperature` so the
code can be proved a refinement of it. -/
def calibrationSpec (v : ℚ) : ℚ :=
  let low := ADC_VOLTAGE_MAX * RESISTOR_LOW / (RESISTOR_DIVIDER + RESISTOR_LOW)
  let high := ADC_VOLTAGE_MAX * RESISTOR_HIGH / (RESISTOR_DIVIDER + RESISTOR_HIGH)
  let normalized := (v * ADC_VOLTAGE_MAX - low) / (high - low)
  max TEMP_RANGE_MIN
    (min TEMP_RANGE_MAX (normalized ^ 2 * (TEMP_RANGE_MAX - TEMP_RANGE_MIN) + TEMP_RANGE_MIN))

end IoT

/-! ### The earlier iteration, src/project_new.py -/

namespace ProjectNew

/-- `get_temperature`, src/project_new.py lines 18-22: the ADC code is
commented out; the function returns the constant `2.5`. -/
def get_temperature : ℚ := 5 / 2

/-- The page rendered by `template` with a displayed temperature. -/
structure Page where
  temperature : ℚ
deriving DecidableEq, Repr

/-- Program state of src/project_new.py that a handler could touch: the
last level commanded on the relay pin (`none` = never commanded).
There is no stored setpoint and the handlers reference no mutable
global. -/
structure State where
  relayHigh : Option Bool
deriving DecidableEq, Repr

/-- `index`, src/project_new.py lines 35-38: render the template with
the current `get_temperature()` value.  It reads no mutable state. -/
def index : Page :=
  Page.mk get_temperature

/-- `control_heater`, src/project_new.py lines 25-32: hard-coded target
`50`, current temperature from `get_temperature()`, relay HIGH when
strictly below the target, LOW otherwise.  (Never called by a handler;
also, the GPIO import is commented out, so an actual call would raise
`NameError` — the decision it encodes is what is modelled.) -/
def control_heater (st : State) : State :=
  let target_temperature : ℚ := 50
  let current_temperature := get_temperature
  if current_temperature < target_temperature then
    State.mk (some true)
  else
    State.mk (some false)

/-- `set_target_temperature`, src/project_new.py lines 40-44: read the
`target_temp` form field (the argument here), then — the body holds only
a comment — return `index()`.  No state is touched. -/
def set_target_temperature (target_temp : Option String) (st : State) :
    State × Page :=
  (st, index)

end ProjectNew

/-! ## Model validation on concrete inputs

Spot checks of the embedding against the behavior of the Python source
(and, for `pyFloatParse`, against the CPython `float()` builtin) on
concrete values. -/

example : IoT.control_heating_relay (.finite 500) (some (.finite 495)) .off
    = ⟨.on, true, true, [.engaged]⟩ := by with_unfolding_all decide
example : IoT.control_heating_relay (.finite 500) (some (.finite 495)) .on
    = ⟨.on, true, true, [.engaged]⟩ := by with_unfolding_all decide
example : IoT.control_heating_relay (.finite 500) (some (.finite 490)) .off
    = ⟨.on, true, true, [.engaged, .criticalLow]⟩ := by with_unfolding_all decide
example : IoT.control_heating_relay (.finite 500) (some (.finite 489)) .off
    = ⟨.on, true, true, [.engaged, .criticalLow]⟩ := by with_unfolding_all decide
example : IoT.control_heating_relay (.finite 500) (some (.finite 500)) .on
    = ⟨.off, true, true, [.disengaged]⟩ := by with_unfolding_all decide
example : IoT.control_heating_relay (.finite 100) (some (.finite 90)) .on
    = ⟨.on, false, false, []⟩ := by with_unfolding_all decide
example : IoT.control_heating_relay .posInf (some (.finite 90)) .on
    = ⟨.on, false, false, []⟩ := by with_unfolding_all decide
example : IoT.control_heating_relay .nan none .on
    = ⟨.on, false, false, []⟩ := by with_unfolding_all decide
example : (IoT.runEvaluations (.finite 500)
    [some (.finite 490), some (.finite 490)] .off).2.count .engaged = 2 := by with_unfolding_all decide
example : IoT.pyFloatParse ("inf") = some IoT.PyFloat.posInf := by with_unfolding_all decide
example : IoT.pyFloatParse ("-Infinity") = some IoT.PyFloat.negInf := by with_unfolding_all decide
example : IoT.pyFloatParse ("nan") = some IoT.PyFloat.nan := by with_unfolding_all decide
example : IoT.pyFloatParse ("abc") = none := by with_unfolding_all decide
example : IoT.pyFloatParse ("50") = some (IoT.PyFloat.finite 50) := by with_unfolding_all decide
example : IoT.pyFloatParse (" 500.25 ") = some (IoT.PyFloat.finite (50025/100)) := by with_unfolding_all decide
example : IoT.pyFloatParse ("1e3") = some (IoT.PyFloat.finite 1000) := by with_unfolding_all decide
example : IoT.pyFloatParse ("-2.5e-1") = some (IoT.PyFloat.finite (-25/100)) := by with_unfolding_all decide
example : IoT.pyFloatParse (".") = none := by with_unfolding_all decide
example : IoT.pyFloatParse ("") = none := by with_unfolding_all decide
example : IoT.pyFloatParse ("1.") = some (IoT.PyFloat.finite 1) := by with_unfolding_all decide
example : IoT.set_setpoint (some ("inf")) (.finite 25) = (.errOutOfRange, .finite 25) := by with_unfolding_all decide
example : IoT.set_setpoint (some ("abc")) (.finite 25) = (.errNotANumber, .finite 25) := by with_unfolding_all decide
example : IoT.set_setpoint (some ("50")) (.finite 25) = (.errOutOfRange, .finite 25) := by with_unfolding_all decide
example : IoT.set_setpoint (some ("500")) (.finite 25) = (.ok, .finite 500) := by with_unfolding_all decide
example : IoT.read_temperature (some (1/2)) = some (-461/100) := by with_unfolding_all decide
example : IoT.read_temperature (some 0) = some 500 := by with_unfolding_all decide
example : IoT.read_temperature none = none := rfl

/-! ## Helper lemmas -/

/-- `validate_temperature` accepts exactly the finite values in
`[MIN_TEMPERATURE, MAX_TEMPERATURE]`. -/
theorem IoT.validate_temperature_eq_true_iff (x : IoT.PyFloat) :
    IoT.validate_temperature x = true
      ↔ ∃ q : ℚ, x = IoT.PyFloat.finite q
          ∧ IoT.MIN_TEMPERATURE ≤ q ∧ q ≤ IoT.MAX_TEMPERATURE := by
  cases x <;> simp [IoT.validate_temperature, IoT.PyFloat.le]

/-! ## Claims -/

/-- C1: with a valid setpoint `s` and a successfully read temperature
`r`, the evaluation commands the relay ON (HEATING) exactly when
`r < s` and OFF (IDLE) exactly when `r ≥ s`; in particular a reading
equal to the setpoint yields OFF. -/
theorem IoT.relay_on_iff_reading_below_setpoint (r s : ℚ) (relay0 : IoT.RelayState)
    (hs : IoT.validate_temperature (IoT.PyFloat.finite s) = true) :
    ((IoT.control_heating_relay (IoT.PyFloat.finite s) (some (IoT.PyFloat.finite r)) relay0).relay
        = IoT.RelayState.on ↔ r < s)
    ∧ ((IoT.control_heating_relay (IoT.PyFloat.finite s) (some (IoT.PyFloat.finite r)) relay0).relay
        = IoT.RelayState.off ↔ s ≤ r) := by
  by_cases h : r < s
  · have h2 : ¬ s ≤ r := not_le.mpr h
    simp [IoT.control_heating_relay, hs, IoT.PyFloat.lt, h, h2]
  · have h2 : s ≤ r := not_lt.mp h
    simp [IoT.control_heating_relay, hs, IoT.PyFloat.lt, h, h2]

/-- Witness for C1 at the boundary: reading 500 equals setpoint 500 and
the relay is commanded OFF. -/
theorem IoT.relay_on_iff_reading_below_setpoint_witness :
    IoT.validate_temperature (IoT.PyFloat.finite 500) = true
    ∧ ((IoT.control_heating_relay (IoT.PyFloat.finite 500)
          (some (IoT.PyFloat.finite 500)) IoT.RelayState.on).relay
        = IoT.RelayState.off ↔ (500 : ℚ) ≤ 500) :=
  ⟨by decide,
   (IoT.relay_on_iff_reading_below_setpoint 500 500 IoT.RelayState.on (by decide)).2⟩

/-- C2: when the sensor read returns no value, the evaluation ends with
the relay state it started with, without issuing any relay command and
without emitting any notification (fail-static). -/
theorem IoT.sensor_failure_is_fail_static (target : IoT.PyFloat) (relay0 : IoT.RelayState) :
    (IoT.control_heating_relay target none relay0).relay = relay0
    ∧ (IoT.control_heating_relay target none relay0).commanded = false
    ∧ (IoT.control_heating_relay target none relay0).notifications = [] := by
  by_cases h : IoT.validate_temperature target = false <;>
    simp [IoT.control_heating_relay, h]

/-- C4: with a valid setpoint `s` and a reading `r`, the critically-low
WARNING notification is dispatched exactly when
`r ≤ s - TEMPERATURE_THRESHOLD` (inclusive comparison), whatever the
prior relay state and hence whatever other notification the cycle also
emits. -/
theorem IoT.critical_low_iff_threshold (r s : ℚ) (relay0 : IoT.RelayState)
    (hs : IoT.validate_temperature (IoT.PyFloat.finite s) = true) :
    (IoT.NotificationKind.criticalLow
        ∈ (IoT.control_heating_relay (IoT.PyFloat.finite s)
            (some (IoT.PyFloat.finite r)) relay0).notifications)
      ↔ r ≤ s - IoT.TEMPERATURE_THRESHOLD := by
  by_cases hcrit : r ≤ s - IoT.TEMPERATURE_THRESHOLD
  · have hpos : (0 : ℚ) < IoT.TEMPERATURE_THRESHOLD := by
      norm_num [IoT.TEMPERATURE_THRESHOLD]
    have hlt : r < s := by linarith
    simp [IoT.control_heating_relay, hs, IoT.PyFloat.lt, IoT.PyFloat.le,
      IoT.PyFloat.sub, hlt, hcrit]
  · by_cases hlt : r < s <;>
      simp [IoT.control_heating_relay, hs, IoT.PyFloat.lt, IoT.PyFloat.le,
        IoT.PyFloat.sub, hlt, hcrit]

/-- Witness for C4: setpoint 500, reading 490, exactly at the inclusive
threshold. -/
theorem IoT.critical_low_iff_threshold_witness :
    IoT.validate_temperature (IoT.PyFloat.finite 500) = true
    ∧ ((IoT.NotificationKind.criticalLow
          ∈ (IoT.control_heating_relay (IoT.PyFloat.finite 500)
              (some (IoT.PyFloat.finite 490)) IoT.RelayState.off).notifications)
        ↔ (490 : ℚ) ≤ 500 - IoT.TEMPERATURE_THRESHOLD) :=
  ⟨by decide, IoT.critical_low_iff_threshold 490 500 IoT.RelayState.off (by decide)⟩

/-- C5 counterexample: the "relay engaged" notification is not
edge-triggered.  An evaluation that starts with the relay already ON and
keeps it ON (reading 495, setpoint 500) dispatches one more engaged
notification, and two consecutive such evaluations starting from OFF —
a single IDLE→HEATING transition — dispatch two engaged notifications,
not one. -/
theorem IoT.engaged_reemitted_while_heating :
    (IoT.control_heating_relay (IoT.PyFloat.finite 500)
        (some (IoT.PyFloat.finite 495)) IoT.RelayState.on).relay = IoT.RelayState.on
    ∧ (IoT.control_heating_relay (IoT.PyFloat.finite 500)
        (some (IoT.PyFloat.finite 495)) IoT.RelayState.on).notifications.count
        IoT.NotificationKind.engaged = 1
    ∧ (IoT.runEvaluations (IoT.PyFloat.finite 500)
        [some (IoT.PyFloat.finite 495), some (IoT.PyFloat.finite 495)]
        IoT.RelayState.off).2.count IoT.NotificationKind.engaged = 2 := by
  with_unfolding_all decide

/-- C5 amended: the engaged notification is level-triggered, not
edge-triggered — every evaluation with a valid setpoint whose reading is
strictly below it dispatches exactly one engaged notification, whatever
the prior relay state, and an evaluation with the reading at or above
the setpoint dispatches none. -/
theorem IoT.engaged_emitted_every_heating_cycle (relay0 : IoT.RelayState) (r s : ℚ)
    (hs : IoT.validate_temperature (IoT.PyFloat.finite s) = true) :
    (IoT.control_heating_relay (IoT.PyFloat.finite s)
        (some (IoT.PyFloat.finite r)) relay0).notifications.count
        IoT.NotificationKind.engaged = if r < s then 1 else 0 := by
  by_cases h : r < s
  · by_cases hc : IoT.PyFloat.le (IoT.PyFloat.finite r)
        (IoT.PyFloat.sub (IoT.PyFloat.finite s)
          (IoT.PyFloat.finite IoT.TEMPERATURE_THRESHOLD)) = true <;>
      simp [IoT.control_heating_relay, hs, IoT.PyFloat.lt, h, hc] <;> decide
  · simp [IoT.control_heating_relay, hs, IoT.PyFloat.lt, h] <;> decide

/-- Witness for the amended C5: an evaluation that stays HEATING
(relay already ON, reading 495 < setpoint 500) emits exactly one
engaged notification. -/
theorem IoT.engaged_emitted_every_heating_cycle_witness :
    IoT.validate_temperature (IoT.PyFloat.finite 500) = true
    ∧ (IoT.control_heating_relay (IoT.PyFloat.finite 500)
        (some (IoT.PyFloat.finite 495)) IoT.RelayState.on).notifications.count
        IoT.NotificationKind.engaged = if (495 : ℚ) < 500 then 1 else 0 :=
  ⟨by decide,
   IoT.engaged_emitted_every_heating_cycle IoT.RelayState.on 495 500 (by decide)⟩

/-- C9: a target that fails validation makes `control_heating_relay`
return at once: the sensor is not read, no relay command is issued, the
relay state is untouched and no notification is emitted — even though
the call bypassed `set_setpoint`'s validation. -/
theorem IoT.invalid_target_no_effect (target : IoT.PyFloat)
    (reading : Option IoT.PyFloat) (relay0 : IoT.RelayState)
    (h : IoT.validate_temperature target = false) :
    IoT.control_heating_relay target reading relay0
      = ⟨relay0, false, false, []⟩ := by
  simp [IoT.control_heating_relay, h]

/-- Witness for C9: target 100 °C is below `MIN_TEMPERATURE`, and the
call leaves everything untouched. -/
theorem IoT.invalid_target_no_effect_witness :
    IoT.validate_temperature (IoT.PyFloat.finite 100) = false
    ∧ IoT.control_heating_relay (IoT.PyFloat.finite 100) none IoT.RelayState.on
        = ⟨IoT.RelayState.on, false, false, []⟩ :=
  ⟨by decide,
   IoT.invalid_target_no_effect (IoT.PyFloat.finite 100) none IoT.RelayState.on (by decide)⟩

/-- C3: the validation-and-store step of `set_setpoint` accepts a
candidate exactly when it is a finite value within
`[MIN_TEMPERATURE, MAX_TEMPERATURE]`; a rejected candidate leaves the
stored setpoint untouched, an accepted one stores it. -/
theorem IoT.setpoint_validation_pure (x sp0 : IoT.PyFloat) :
    ((IoT.set_setpoint_validated x sp0).1 = IoT.SetpointOutcome.ok
        ↔ ∃ q : ℚ, x = IoT.PyFloat.finite q
            ∧ IoT.MIN_TEMPERATURE ≤ q ∧ q ≤ IoT.MAX_TEMPERATURE)
    ∧ ((IoT.set_setpoint_validated x sp0).1 ≠ IoT.SetpointOutcome.ok
        → (IoT.set_setpoint_validated x sp0).2 = sp0)
    ∧ ((IoT.set_setpoint_validated x sp0).1 = IoT.SetpointOutcome.ok
        → (IoT.set_setpoint_validated x sp0).2 = x) := by
  have hiff := IoT.validate_temperature_eq_true_iff x
  by_cases h : IoT.validate_temperature x = false
  · rw [h] at hiff
    simp only [Bool.false_eq_true, false_iff] at hiff
    simp [IoT.set_setpoint_validated, h, hiff]
  · simp only [Bool.not_eq_false] at h
    rw [h] at hiff
    simp only [true_iff] at hiff
    simp [IoT.set_setpoint_validated, h, hiff]

/-- Witness for C3: candidate 100 °C is rejected and the stored
setpoint 25 °C survives. -/
theorem IoT.setpoint_validation_pure_witness :
    (IoT.set_setpoint_validated (IoT.PyFloat.finite 100) (IoT.PyFloat.finite 25)).1
        ≠ IoT.SetpointOutcome.ok
    ∧ (IoT.set_setpoint_validated (IoT.PyFloat.finite 100) (IoT.PyFloat.finite 25)).2
        = IoT.PyFloat.finite 25 :=
  ⟨by decide,
   (IoT.setpoint_validation_pure (IoT.PyFloat.finite 100) (IoT.PyFloat.finite 25)).2.1
     (by decide)⟩

/-- C6 counterexample: the string `"inf"` cannot be parsed as a finite
float — `float()` yields `+inf` — yet `set_setpoint` classifies it
OutOfRange, not NotANumber, so "NotANumber exactly when the string
cannot be parsed as a finite float" fails at this input. -/
theorem IoT.inf_classified_out_of_range :
    IoT.pyFloatParse ("inf") = some IoT.PyFloat.posInf
    ∧ (IoT.set_setpoint (some ("inf")) (IoT.PyFloat.finite 25)).1
        = IoT.SetpointOutcome.errOutOfRange
    ∧ (IoT.set_setpoint (some ("inf")) (IoT.PyFloat.finite 25)).1
        ≠ IoT.SetpointOutcome.errNotANumber := by
  with_unfolding_all decide

/-- C6 amended: for every submitted string, the failure is classified
NotANumber exactly when `float()` fails to parse it at all, and
OutOfRange exactly when it parses — possibly to an infinity or nan —
to a value rejected by the range validation
`MIN_TEMPERATURE <= v <= MAX_TEMPERATURE`; any failure leaves the
stored setpoint unchanged. -/
theorem IoT.set_setpoint_error_classification (str : String) (sp0 : IoT.PyFloat) :
    ((IoT.set_setpoint (some str) sp0).1 = IoT.SetpointOutcome.errNotANumber
        ↔ IoT.pyFloatParse str = none)
    ∧ ((IoT.set_setpoint (some str) sp0).1 = IoT.SetpointOutcome.errOutOfRange
        ↔ ∃ v, IoT.pyFloatParse str = some v ∧ IoT.validate_temperature v = false)
    ∧ ((IoT.set_setpoint (some str) sp0).1 ≠ IoT.SetpointOutcome.ok
        → (IoT.set_setpoint (some str) sp0).2 = sp0) := by
  cases hp : IoT.pyFloatParse str with
  | none => simp [IoT.set_setpoint, hp]
  | some v =>
    by_cases hv : IoT.validate_temperature v = false <;>
      simp [IoT.set_setpoint, IoT.set_setpoint_validated, hp, hv]

/-- Witness for the amended C6: `"abc"` does not parse, the call fails
and the stored setpoint 25 °C survives. -/
theorem IoT.set_setpoint_error_classification_witness :
    (IoT.set_setpoint (some ("abc")) (IoT.PyFloat.finite 25)).1
        ≠ IoT.SetpointOutcome.ok
    ∧ (IoT.set_setpoint (some ("abc")) (IoT.PyFloat.finite 25)).2
        = IoT.PyFloat.finite 25 :=
  ⟨by with_unfolding_all decide,
   (IoT.set_setpoint_error_classification ("abc") (IoT.PyFloat.finite 25)).2.2
     (by with_unfolding_all decide)⟩

/-- C7 counterexample: the unconfigured result of
`send_email_notification` is the bare boolean `False`, the very value
returned for an SMTP authentication failure — the caller cannot
distinguish the two from the result, so no distinct Unconfigured result
exists. -/
theorem IoT.unconfigured_equals_auth_failure :
    (IoT.send_email_notification none IoT.SmtpOutcome.delivered).ok
      = (IoT.send_email_notification
          (some (IoT.EmailCredentials.mk ("sender") ("secret") ("recipient")))
          IoT.SmtpOutcome.authFailure).ok
    ∧ (IoT.send_email_notification none IoT.SmtpOutcome.delivered).ok = false := by
  decide

/-- C7 amended: `send_email_notification` always returns a boolean
result and never raises; with no credentials record it returns `False`
without opening any transport (a valid, merely informational state),
and with credentials it attempts the transport and returns `True`
exactly on delivery — but the unconfigured `False` is the same value as
a transport or authentication failure, distinguishable only in the
logs.  Its outcome is ignored by the controller: the relay command
precedes the send and does not depend on it. -/
theorem IoT.send_total_unconfigured_no_transport (c : IoT.EmailCredentials)
    (t t2 : IoT.SmtpOutcome) :
    IoT.send_email_notification none t = ⟨false, false⟩
    ∧ (IoT.send_email_notification (some c) t2).transportAttempted = true
    ∧ ((IoT.send_email_notification (some c) t2).ok = true
        ↔ t2 = IoT.SmtpOutcome.delivered) := by
  refine ⟨rfl, ?_, ?_⟩ <;> cases t2 <;> simp [IoT.send_email_notification]

/-- C10: the POST handler of the earlier iteration reads the
`target_temp` form value and discards it — it changes no program state,
issues no relay command, stores no setpoint, and returns exactly the
page the GET index handler renders, whose displayed temperature is the
constant `2.5`. -/
theorem ProjectNew.post_handler_is_noop (target_temp : Option String)
    (st : ProjectNew.State) :
    ProjectNew.set_target_temperature target_temp st = (st, ProjectNew.index)
    ∧ ProjectNew.index.temperature = 5 / 2
    ∧ ProjectNew.get_temperature = 5 / 2 :=
  ⟨rfl, rfl, rfl⟩

/-- Rounding half to even stays within any pair of integer bounds that
enclose the argument. -/
theorem IoT.roundHalfEven_bounds {a b : ℤ} {x : ℚ} (ha : (a : ℚ) ≤ x)
    (hb : x ≤ (b : ℚ)) :
    a ≤ IoT.roundHalfEven x ∧ IoT.roundHalfEven x ≤ b := by
  simp only [IoT.roundHalfEven]
  have hfa : a ≤ ⌊x⌋ := Int.le_floor.mpr ha
  have hfbq : (⌊x⌋ : ℚ) ≤ (b : ℚ) := le_trans (Int.floor_le x) hb
  have hfb : ⌊x⌋ ≤ b := by exact_mod_cast hfbq
  have hfl : (⌊x⌋ : ℚ) ≤ x := Int.floor_le x
  split_ifs with h1 h2 h3
  · exact ⟨hfa, hfb⟩
  · refine ⟨by omega, ?_⟩
    have hx : (⌊x⌋ : ℚ) + 1 / 2 < x := by linarith
    have hq : (⌊x⌋ : ℚ) < (b : ℚ) := by linarith
    have : ⌊x⌋ < b := by exact_mod_cast hq
    omega
  · exact ⟨hfa, hfb⟩
  · refine ⟨by omega, ?_⟩
    have h12 : x - ⌊x⌋ = 1 / 2 := le_antisymm (not_lt.mp h2) (not_lt.mp h1)
    have hq : (⌊x⌋ : ℚ) < (b : ℚ) := by linarith
    have : ⌊x⌋ < b := by exact_mod_cast hq
    omega

/-- Two-decimal rounding keeps a value of `[TEMP_RANGE_MIN, TEMP_RANGE_MAX]`
inside that interval. -/
theorem IoT.round2_bounds {x : ℚ} (ha : IoT.TEMP_RANGE_MIN ≤ x)
    (hb : x ≤ IoT.TEMP_RANGE_MAX) :
    IoT.TEMP_RANGE_MIN ≤ IoT.round2 x ∧ IoT.round2 x ≤ IoT.TEMP_RANGE_MAX := by
  have hmin : IoT.TEMP_RANGE_MIN = ((-50 : ℤ) : ℚ) := by norm_num [IoT.TEMP_RANGE_MIN]
  have hmax : IoT.TEMP_RANGE_MAX = ((500 : ℤ) : ℚ) := by norm_num [IoT.TEMP_RANGE_MAX]
  have h1 : ((-5000 : ℤ) : ℚ) ≤ 100 * x := by
    rw [hmin] at ha; push_cast at ha ⊢; linarith
  have h2 : 100 * x ≤ ((50000 : ℤ) : ℚ) := by
    rw [hmax] at hb; push_cast at hb ⊢; linarith
  obtain ⟨l, u⟩ := IoT.roundHalfEven_bounds h1 h2
  have lq : ((-5000 : ℤ) : ℚ) ≤ ((IoT.roundHalfEven (100 * x) : ℤ) : ℚ) := by
    exact_mod_cast l
  have uq : ((IoT.roundHalfEven (100 * x) : ℤ) : ℚ) ≤ ((50000 : ℤ) : ℚ) := by
    exact_mod_cast u
  unfold IoT.round2
  constructor
  · rw [hmin]; push_cast at lq ⊢; linarith
  · rw [hmax]; push_cast at uq ⊢; linarith

/-- C8: on every raw ADC sample, the physical temperature source
computes exactly the spec's calibration curve — the sample's voltage
normalized between the two resistor-divider reference voltages, squared
and mapped through `temp = normalized^2 * (T_max - T_min) + T_min`,
clamped to `[T_min, T_max]` — and its reported value (the clamped value
rounded to two decimals, per the function's documented precision) stays
within `[T_min, T_max]`. -/
theorem IoT.read_temperature_matches_calibration (v : ℚ) :
    IoT.read_temperature (some v) = some (IoT.round2 (IoT.calibrationSpec v))
    ∧ IoT.TEMP_RANGE_MIN ≤ IoT.round2 (IoT.calibrationSpec v)
    ∧ IoT.round2 (IoT.calibrationSpec v) ≤ IoT.TEMP_RANGE_MAX := by
  have hne : IoT.ADC_VOLTAGE_MAX * IoT.RESISTOR_HIGH
        / (IoT.RESISTOR_DIVIDER + IoT.RESISTOR_HIGH)
      - IoT.ADC_VOLTAGE_MAX * IoT.RESISTOR_LOW
        / (IoT.RESISTOR_DIVIDER + IoT.RESISTOR_LOW) ≠ 0 := by
    norm_num [IoT.ADC_VOLTAGE_MAX, IoT.RESISTOR_HIGH, IoT.RESISTOR_LOW,
      IoT.RESISTOR_DIVIDER]
  have hclampl : IoT.TEMP_RANGE_MIN ≤ IoT.calibrationSpec v := by
    simp only [IoT.calibrationSpec]
    exact le_max_left _ _
  have hclampu : IoT.calibrationSpec v ≤ IoT.TEMP_RANGE_MAX := by
    simp only [IoT.calibrationSpec]
    apply max_le
    · norm_num [IoT.TEMP_RANGE_MIN, IoT.TEMP_RANGE_MAX]
    · exact min_le_left _ _
  obtain ⟨hl, hu⟩ := IoT.round2_bounds hclampl hclampu
  refine ⟨?_, hl, hu⟩
  simp only [IoT.read_temperature, IoT.calibrationSpec]
  rw [if_pos hne]
